/-
  Verification of the SharePoint lecture-video download orchestration engine
  (src/download_lectures.py) against its natural-language specification.

  The Python source is shallowly embedded: pure helpers become Lean functions,
  the stateful download controller becomes an explicit state-passing function
  driven by an environment that supplies the result of each external fetch
  invocation, and all recursion is fuel-based so every definition evaluates
  in the kernel.  Machine floats in the source are modelled by exact
  rationals (ℚ); all arithmetic performed by the source on these values
  (division by constants, absolute difference, comparison against integral
  tolerances) is exact in binary floating point for the ranges involved, so
  the ℚ model is faithful on every input considered here.
-/
import Mathlib

namespace SharePointDL

/-! ## Configuration constants (src/download_lectures.py lines 44-57) -/

def DURATION_TOLERANCE : ℚ := 10

def MIN_FILE_SIZE : Nat := 1000000

def DELAY_BETWEEN_DOWNLOADS : Nat := 3

def MAX_RETRIES_ON_429 : Nat := 2

def RETRY_DELAY_429 : Nat := 30

/-! ## String helpers

`findSub h n` models Python's `h.find(n)` (index of the first occurrence of
`n` in `h`, `None` standing for `-1`); `strContains h n` models the substring
test `n in h`; `lowerStr` models `str.lower()` on the ASCII range (the source
only ever compares against ASCII keywords). -/

def listPrefixOf : List Char → List Char → Bool
  | [], _ => true
  | _ :: _, [] => false
  | a :: as, b :: bs => a == b && listPrefixOf as bs

def findSub (hay needle : List Char) : Option Nat :=
  if listPrefixOf needle hay then some 0
  else
    match hay with
    | [] => none
    | _ :: t => (findSub t needle).map (· + 1)

def strContains (hay needle : String) : Bool :=
  (findSub hay.data needle.data).isSome

def lowerStr (s : String) : String :=
  String.mk (s.data.map Char.toLower)

/-! ## Result validator: `validate_video` (lines 159-190)

The probed duration (`get_video_duration`, an external `ffprobe` call) is an
input.  Python's truthiness test `if expected_duration:` treats both `None`
and `0.0` as false, hence the explicit zero cases below. -/

inductive ValidationMsg
  | missing
  | tooSmall (size : Nat)
  | durationUnreadable
  | durationMismatch (expected actual : ℚ)
  | validDuration (actual : ℚ)
  | validSize (size : Nat)
deriving Repr, DecidableEq

def validate_video (file : Option Nat) (probe : Option ℚ)
    (expected_duration : Option ℚ) : Bool × ValidationMsg :=
  match file with
  | none => (false, .missing)
  | some file_size =>
    if file_size < MIN_FILE_SIZE then (false, .tooSmall file_size)
    else
      match expected_duration with
      | none => (true, .validSize file_size)
      | some e =>
        if e = 0 then (true, .validSize file_size)
        else
          match probe with
          | none => (false, .durationUnreadable)
          | some a =>
            if |a - e| > DURATION_TOLERANCE then (false, .durationMismatch e a)
            else (true, .validDuration a)

/-! ## Percent decoding

Models `urllib.parse.unquote` for inputs whose percent sequences denote
single-byte (ASCII-range) code points — the only inputs the claims and
counterexamples exercise.  An invalid `%` sequence is passed through
literally, as `unquote` does. -/

def hexVal (c : Char) : Option Nat :=
  if '0' ≤ c ∧ c ≤ '9' then some (c.toNat - 48)
  else if 'a' ≤ c ∧ c ≤ 'f' then some (c.toNat - 97 + 10)
  else if 'A' ≤ c ∧ c ≤ 'F' then some (c.toNat - 65 + 10)
  else none

def percentDecode : List Char → List Char
  | '%' :: h1 :: h2 :: rest =>
    match hexVal h1, hexVal h2 with
    | some a, some b => Char.ofNat (16 * a + b) :: percentDecode rest
    | _, _ => '%' :: percentDecode (h1 :: h2 :: rest)
  | c :: rest => c :: percentDecode rest
  | [] => []

/-! ## Base64 decoding

Models `base64.b64decode` applied to a `str` (default `validate=False`):
non-ASCII input fails (the implicit `.encode('ascii')`), characters outside
the alphabet are discarded, the remaining length must be a multiple of four,
and `'='` may appear only as trailing padding of the final group. -/

def b64CharVal (c : Char) : Option Nat :=
  if 'A' ≤ c ∧ c ≤ 'Z' then some (c.toNat - 65)
  else if 'a' ≤ c ∧ c ≤ 'z' then some (c.toNat - 97 + 26)
  else if '0' ≤ c ∧ c ≤ '9' then some (c.toNat - 48 + 52)
  else if c = '+' then some 62
  else if c = '/' then some 63
  else none

def isB64Char (c : Char) : Bool :=
  (b64CharVal c).isSome || c = '='

def b64Groups : List Char → Option (List Nat)
  | [] => some []
  | c1 :: c2 :: c3 :: c4 :: rest =>
    match b64CharVal c1, b64CharVal c2 with
    | some v1, some v2 =>
      if c3 = '=' then
        if c4 = '=' ∧ rest = [] then some [v1 * 4 + v2 / 16]
        else none
      else
        match b64CharVal c3 with
        | some v3 =>
          if c4 = '=' then
            if rest = [] then some [v1 * 4 + v2 / 16, (v2 % 16) * 16 + v3 / 4]
            else none
          else
            match b64CharVal c4 with
            | some v4 =>
              (b64Groups rest).map
                (fun bs =>
                  (v1 * 4 + v2 / 16) :: ((v2 % 16) * 16 + v3 / 4) ::
                    ((v3 % 4) * 64 + v4) :: bs)
            | none => none
        | none => none
    | _, _ => none
  | _ => none

def b64decode (s : List Char) : Option (List Nat) :=
  if s.any (fun c => 128 ≤ c.toNat) then none
  else b64Groups (s.filter isB64Char)

/-! ## UTF-8 decoding

Models `bytes.decode('utf-8')` (strict): continuation-byte range checks
reject overlong encodings and surrogates; any violation fails, which the
caller converts to `None`.  Fuel-based so the definition evaluates in the
kernel; one byte is always consumed per step, so `l.length` fuel suffices. -/

def utf8DecodeAux : Nat → List Nat → Option (List Char)
  | _, [] => some []
  | 0, _ :: _ => none
  | fuel + 1, b :: rest =>
    if b < 128 then
      (utf8DecodeAux fuel rest).map (Char.ofNat b :: ·)
    else if 194 ≤ b ∧ b ≤ 223 then
      match rest with
      | b2 :: rest2 =>
        if 128 ≤ b2 ∧ b2 ≤ 191 then
          (utf8DecodeAux fuel rest2).map
            (Char.ofNat ((b - 192) * 64 + (b2 - 128)) :: ·)
        else none
      | [] => none
    else if 224 ≤ b ∧ b ≤ 239 then
      match rest with
      | b2 :: b3 :: rest3 =>
        let lo2 := if b = 224 then 160 else 128
        let hi2 := if b = 237 then 159 else 191
        if (lo2 ≤ b2 ∧ b2 ≤ hi2) ∧ (128 ≤ b3 ∧ b3 ≤ 191) then
          (utf8DecodeAux fuel rest3).map
            (Char.ofNat ((b - 224) * 4096 + (b2 - 128) * 64 + (b3 - 128)) :: ·)
        else none
      | _ => none
    else if 240 ≤ b ∧ b ≤ 244 then
      match rest with
      | b2 :: b3 :: b4 :: rest4 =>
        let lo2 := if b = 240 then 144 else 128
        let hi2 := if b = 244 then 143 else 191
        if (lo2 ≤ b2 ∧ b2 ≤ hi2) ∧ (128 ≤ b3 ∧ b3 ≤ 191) ∧
            (128 ≤ b4 ∧ b4 ≤ 191) then
          (utf8DecodeAux fuel rest4).map
            (Char.ofNat ((b - 240) * 262144 + (b2 - 128) * 4096 +
              (b3 - 128) * 64 + (b4 - 128)) :: ·)
        else none
      | _ => none
    else none

def utf8Decode (l : List Nat) : Option (List Char) :=
  utf8DecodeAux l.length l

/-! ## JSON parsing

Models `json.loads` on the fragment of JSON the source can encounter:
objects, arrays, strings (with the standard escapes and non-surrogate
`\uXXXX`), numbers (integer part, optional fraction and exponent, no leading
zeros), `true`/`false`/`null`.  Python's `NaN`/`Infinity` extensions are not
modelled; no input considered here uses them.  All recursion is fuel-based;
each recursion step consumes at least one input character, so fuel equal to
the input length plus one never exhausts before the input does. -/

inductive Json
  | null
  | bool (b : Bool)
  | num (q : ℚ)
  | str (s : String)
  | arr (xs : List Json)
  | obj (kvs : List (String × Json))

def lbrace : Char := Char.ofNat 123

def rbrace : Char := Char.ofNat 125

def skipWs (l : List Char) : List Char :=
  l.dropWhile (fun c => c = ' ' || c = '\t' || c = '\n' || c = '\r')

def escChar (c : Char) : Option Char :=
  if c = '"' then some '"'
  else if c = '\\' then some '\\'
  else if c = '/' then some '/'
  else if c = 'b' then some (Char.ofNat 8)
  else if c = 'f' then some (Char.ofNat 12)
  else if c = 'n' then some '\n'
  else if c = 'r' then some '\r'
  else if c = 't' then some '\t'
  else none

def parseJString : Nat → List Char → Option (List Char × List Char)
  | 0, _ => none
  | _ + 1, [] => none
  | fuel + 1, c :: rest =>
    if c = '"' then some ([], rest)
    else if c = '\\' then
      match rest with
      | 'u' :: h1 :: h2 :: h3 :: h4 :: r =>
        match hexVal h1, hexVal h2, hexVal h3, hexVal h4 with
        | some a, some b, some c4, some d =>
          let cp := a * 4096 + b * 256 + c4 * 16 + d
          if 55296 ≤ cp ∧ cp ≤ 57343 then none
          else (parseJString fuel r).map (fun p => (Char.ofNat cp :: p.1, p.2))
        | _, _, _, _ => none
      | e :: r =>
        match escChar e with
        | some ec => (parseJString fuel r).map (fun p => (ec :: p.1, p.2))
        | none => none
      | [] => none
    else if c.toNat < 32 then none
    else (parseJString fuel rest).map (fun p => (c :: p.1, p.2))

def splitDigits (l : List Char) : List Char × List Char :=
  (l.takeWhile Char.isDigit, l.dropWhile Char.isDigit)

def digitsVal (ds : List Char) : Nat :=
  ds.foldl (fun a c => a * 10 + (c.toNat - 48)) 0

def pow10Z (e : Int) : ℚ :=
  if 0 ≤ e then ((10 ^ e.toNat : Nat) : ℚ) else 1 / ((10 ^ (-e).toNat : Nat) : ℚ)

def parseExpPart (q : ℚ) (l : List Char) : Option (ℚ × List Char) :=
  match l with
  | 'e' :: r =>
    match r with
    | '+' :: r2 =>
      match splitDigits r2 with
      | ([], _) => none
      | (es, r3) => some (q * pow10Z (digitsVal es : Int), r3)
    | '-' :: r2 =>
      match splitDigits r2 with
      | ([], _) => none
      | (es, r3) => some (q * pow10Z (-(digitsVal es : Int)), r3)
    | _ =>
      match splitDigits r with
      | ([], _) => none
      | (es, r3) => some (q * pow10Z (digitsVal es : Int), r3)
  | 'E' :: r =>
    match r with
    | '+' :: r2 =>
      match splitDigits r2 with
      | ([], _) => none
      | (es, r3) => some (q * pow10Z (digitsVal es : Int), r3)
    | '-' :: r2 =>
      match splitDigits r2 with
      | ([], _) => none
      | (es, r3) => some (q * pow10Z (-(digitsVal es : Int)), r3)
    | _ =>
      match splitDigits r with
      | ([], _) => none
      | (es, r3) => some (q * pow10Z (digitsVal es : Int), r3)
  | _ => some (q, l)

def parseNumber (l : List Char) : Option (Json × List Char) :=
  let sgn := match l with
    | '-' :: r => (true, r)
    | _ => (false, l)
  match splitDigits sgn.2 with
  | ([], _) => none
  | (d :: ds, l2) =>
    if d = '0' ∧ ds ≠ [] then none
    else
      let ip : ℚ := (digitsVal (d :: ds) : ℚ)
      let withFrac : Option (ℚ × List Char) :=
        match l2 with
        | '.' :: r =>
          match splitDigits r with
          | ([], _) => none
          | (fs, l3) =>
            parseExpPart (ip + (digitsVal fs : ℚ) / ((10 ^ fs.length : Nat) : ℚ)) l3
        | _ => parseExpPart ip l2
      withFrac.map (fun p => (Json.num (if sgn.1 then -p.1 else p.1), p.2))

def parseListAux (p : List Char → Option (Json × List Char)) :
    Nat → List Char → Option (List Json × List Char)
  | 0, _ => none
  | fuel + 1, l =>
    match p l with
    | none => none
    | some (v, r) =>
      match skipWs r with
      | ',' :: r2 => (parseListAux p fuel r2).map (fun q => (v :: q.1, q.2))
      | ']' :: r2 => some ([v], r2)
      | _ => none

def parseMembersAux (p : List Char → Option (Json × List Char)) :
    Nat → List Char → Option (List (String × Json) × List Char)
  | 0, _ => none
  | fuel + 1, l =>
    match skipWs l with
    | '"' :: r =>
      match parseJString r.length r with
      | none => none
      | some (key, r2) =>
        match skipWs r2 with
        | ':' :: r3 =>
          match p r3 with
          | none => none
          | some (v, r4) =>
            match skipWs r4 with
            | ',' :: r5 =>
              (parseMembersAux p fuel r5).map
                (fun q => ((String.mk key, v) :: q.1, q.2))
            | c :: r5 =>
              if c = rbrace then some ([(String.mk key, v)], r5) else none
            | [] => none
        | _ => none
    | _ => none

def parseValue : Nat → List Char → Option (Json × List Char)
  | 0, _ => none
  | fuel + 1, l =>
    match skipWs l with
    | [] => none
    | c :: r =>
      if c = lbrace then
        match skipWs r with
        | c2 :: r2 =>
          if c2 = rbrace then some (.obj [], r2)
          else
            (parseMembersAux (parseValue fuel) (r.length + 1) (c2 :: r2)).map
              (fun q => (.obj q.1, q.2))
        | [] => none
      else if c = '[' then
        match skipWs r with
        | ']' :: r2 => some (.arr [], r2)
        | l2 =>
          (parseListAux (parseValue fuel) (l2.length + 1) l2).map
            (fun q => (.arr q.1, q.2))
      else if c = '"' then
        (parseJString r.length r).map (fun q => (.str (String.mk q.1), q.2))
      else if c = 'n' then
        match r with
        | 'u' :: 'l' :: 'l' :: rr => some (.null, rr)
        | _ => none
      else if c = 't' then
        match r with
        | 'r' :: 'u' :: 'e' :: rr => some (.bool true, rr)
        | _ => none
      else if c = 'f' then
        match r with
        | 'a' :: 'l' :: 's' :: 'e' :: rr => some (.bool false, rr)
        | _ => none
      else parseNumber (c :: r)

def json_loads (s : String) : Option Json :=
  match parseValue (s.data.length + 1) s.data with
  | some (v, rest) => if skipWs rest = [] then some v else none
  | none => none

/-- Dictionary lookup built by `json.loads`: a repeated key keeps the last
occurrence, as Python dict construction does. -/
def lookupLast (kvs : List (String × Json)) (k : String) : Option Json :=
  kvs.foldl (fun acc kv => if kv.1 = k then some kv.2 else acc) none

/-- Models `metadata.get('Duration100Nano', 0)` followed by Python's `/`:
an absent key yields the default `0`; a present numeric value is itself;
Python booleans are ints, so `True`/`False` divide as `1`/`0`; any other
value (string, list, object, null) raises `TypeError` at the division,
which the enclosing `except` turns into `None`. -/
def getNumericDefaultZero (kvs : List (String × Json)) (k : String) : Option ℚ :=
  match lookupLast kvs k with
  | none => some 0
  | some (Json.num q) => some q
  | some (Json.bool b) => some (if b then 1 else 0)
  | some _ => none

/-! ## URL normalizer (lines 95-131 and 491-512) -/

/-- `extract_duration_from_url` (lines 95-131): locate
`altManifestMetadata=`, slice to the next `&` or end of string,
percent-decode, pad to a multiple of four, base64-decode, UTF-8-decode,
JSON-parse, take `metadata.get('Duration100Nano', 0)` and divide by 10^7.
Python wraps the body in `try/except Exception: return None`, so every
failing step maps to `none` here; a decoded JSON value without a `.get`
method (non-object) raises `AttributeError` → `none`; a present field whose
value does not support division (string, list, object, null) raises
`TypeError` → `none`; Python booleans are ints, so a boolean field value
divides to 1e-7 or 0. -/
def extract_duration_from_url (url : String) : Option ℚ :=
  match findSub url.data "altManifestMetadata=".data with
  | none => none
  | some i =>
    let payload := (url.data.drop (i + 20)).takeWhile (fun c => c ≠ '&')
    let decoded := percentDecode payload
    let pad := 4 - decoded.length % 4
    let padded := if pad = 4 then decoded else decoded ++ List.replicate pad '='
    match b64decode padded with
    | none => none
    | some bytes =>
      match utf8Decode bytes with
      | none => none
      | some chars =>
        match json_loads (String.mk chars) with
        | some (Json.obj kvs) =>
          match getNumericDefaultZero kvs "Duration100Nano" with
          | some duration_100nano => some (duration_100nano / 10000000)
          | none => none
        | _ => none

/-- `trim_url` (lines 491-512): truncate after the first `&format=dash`,
else after the first `format=dash`, else return the URL unchanged. -/
def trim_url (url : String) : String :=
  match findSub url.data "&format=dash".data with
  | some i => String.mk (url.data.take (i + 12))
  | none =>
    match findSub url.data "format=dash".data with
    | some i => String.mk (url.data.take (i + 11))
    | none => url

/-! ## Failure records and the ffmpeg diagnostic extractor -/

/-- One entry of the global `failed_downloads` list (appended under
`failed_downloads_lock`); the `url` field is always written as `""`,
reserved for an operator-supplied replacement URL before a retry run. -/
structure FailureRecord where
  subject : String
  name : String
  url : String
  error : String
deriving Repr, DecidableEq

/-- The keyword list of `extract_ffmpeg_error` (lines 601-604). -/
def errorIndicators : List String :=
  ["error", "failed", "invalid", "denied", "forbidden",
   "unauthorized", "timeout", "refused", "not found", "403", "401", "404"]

/-- Python's `str.split('\n')`. -/
def splitOnNlAux : List Char → List Char → List (List Char)
  | acc, [] => [acc.reverse]
  | acc, c :: rest =>
    if c = '\n' then acc.reverse :: splitOnNlAux [] rest
    else splitOnNlAux (c :: acc) rest

def splitLines (s : String) : List String :=
  (splitOnNlAux [] s.data).map String.mk

/-- ASCII whitespace as stripped by Python's `str.strip()`. -/
def pyWhitespace (c : Char) : Bool :=
  c = ' ' || c = '\t' || c = '\n' || c = '\r' || c = Char.ofNat 11 || c = Char.ofNat 12

/-- Python's `str.strip()` on the ASCII range. -/
def pyStrip (s : String) : String :=
  String.mk (((s.data.dropWhile pyWhitespace).reverse.dropWhile pyWhitespace).reverse)

/-- Python's `sep.join(parts)`. -/
def joinWith (sep : String) : List String → String
  | [] => ""
  | [x] => x
  | x :: xs => x ++ sep ++ joinWith sep xs

/-- `extract_ffmpeg_error` (lines 592-613): collect stripped lines whose
lowercase form contains an error keyword (up to five), else the last three
stripped non-empty lines, else a fixed fallback. -/
def extract_ffmpeg_error (stderr : String) : String :=
  if stderr = "" then "Unknown error (no stderr output)"
  else
    let ls := splitLines stderr
    let errorLines :=
      (ls.filter
        (fun line => errorIndicators.any (fun ind => strContains (lowerStr line) ind))).map
        pyStrip
    if errorLines ≠ [] then joinWith "\n   " (errorLines.take 5)
    else
      let nonEmpty := (ls.map pyStrip).filter (fun l => l ≠ "")
      if nonEmpty ≠ [] then
        joinWith "\n   " (nonEmpty.drop (nonEmpty.length - 3))
      else "Unknown error"

/-! ## The per-item download controller

`download_video` (ffmpeg, lines 637-821) and `download_video_ytdlp`
(lines 281-453) are modelled as fuel-based loops over an explicit state.
Each external `subprocess.run` invocation is answered by an environment
`env : Nat → FetchResult` indexed by the number of fetch invocations made
so far; a `FetchResult` carries the process outcome together with the state
of the destination file once the process has finished and the value a
subsequent `ffprobe` duration probe would report.  The observable effects
kept in the state are the destination file, the `failed_downloads` ledger,
the sequence of `time.sleep` calls, the fetch invocations (re-encode flag
and retry counter of each), and the advisory duration-mismatch warnings the
source merely prints. -/

inductive FetchResult
  /-- `subprocess.run` returned: exit code, captured stderr and stdout, the
  destination file's size afterwards (`none` = not created), and what a
  duration probe of that file would return. -/
  | completed (returncode : Int) (stderr stdout : String)
      (fileAfter : Option Nat) (probe : Option ℚ)
  /-- `subprocess.TimeoutExpired`; the file state when the process was
  killed. -/
  | timeout (fileAfter : Option Nat)
  /-- `FileNotFoundError`: the fetch binary is not installed. -/
  | toolMissing
  /-- any other exception, with `str(e)` and the file state. -/
  | excOther (msg : String) (fileAfter : Option Nat)

structure DLState where
  file : Option Nat
  ledger : List FailureRecord
  sleeps : List Nat
  calls : List (Bool × Nat)
  warnings : List (ℚ × ℚ)
deriving Repr, DecidableEq

def DLState.init (file : Option Nat) : DLState :=
  { file := file, ledger := [], sleeps := [], calls := [], warnings := [] }

def addFailure (s : DLState) (subject name error : String) : DLState :=
  { s with ledger := s.ledger ++ [⟨subject, name, "", error⟩] }

def rateLimitErrorMsg : String :=
  "Rate limited (429) - too many requests. Try again later or reduce parallel downloads."

def rateLimitErrorMsgYt : String :=
  "Rate limited (429) - too many requests. Try again later."

def authErrorMsg : String :=
  "Authentication error (403/401) - URL may have expired"

/-- Python `int()` truncation toward zero of a rational. -/
def pyTrunc (q : ℚ) : Int :=
  Int.tdiv q.num (Int.ofNat q.den)

/-- `timeout_seconds = max(1800, int(expected_duration) + 600) if
expected_duration else 1800` (line 694); `0.0` is falsy. -/
def timeoutSeconds (expected_duration : Option ℚ) : Int :=
  match expected_duration with
  | some e => if e = 0 then 1800 else max 1800 (pyTrunc e + 600)
  | none => 1800

/-- The timeout failure message (line 791); `//` here acts on a positive
value, where floor and truncating division agree. -/
def timeoutErrorMsg (expected_duration : Option ℚ) : String :=
  "Download timeout after " ++ toString (Int.tdiv (timeoutSeconds expected_duration) 60)
    ++ " minutes"

/-- The advisory duration check on the success path (lines 719-728 and
356-365): a beyond-tolerance mismatch is printed (recorded here as a
warning) but the file is kept and the call still succeeds.  Python's
truthiness tests skip the check when the expected or probed duration is
`None` or `0.0`. -/
def durationAdvisory (s : DLState) (expected_duration probe : Option ℚ) : DLState :=
  match expected_duration with
  | none => s
  | some e =>
    if e = 0 then s
    else
      match probe with
      | none => s
      | some a =>
        if a = 0 then s
        else if |a - e| > DURATION_TOLERANCE then
          { s with warnings := s.warnings ++ [(e, a)] }
        else s

/-- The recursive body of `download_video` (lines 637-821), with the
expected duration precomputed (the source recomputes
`extract_duration_from_url(original_url or url)`, a pure function of
constant arguments, on every self-call).  Fuel bounds the recursion depth;
the source's own recursion is bounded by 2 escalations × 3 rate-limit
attempts, so any fuel ≥ 6 is never exhausted. -/
def download_video_loop (env : Nat → FetchResult) (expected_duration : Option ℚ)
    (subject name : String) :
    Bool → Nat → Nat → DLState → DLState × Bool
  | _, _, 0, s => (s, false)
  | use_reencode, retry_count, fuel + 1, s =>
    let skipExisting : Bool :=
      match s.file with
      | some file_size => file_size > MIN_FILE_SIZE
      | none => false
    if skipExisting then (s, true)
    else
      let s1 := { s with file := none }
      let s2 := { s1 with calls := s1.calls ++ [(use_reencode, retry_count)] }
      match env s1.calls.length with
      | .completed rc stderr _ fileAfter probe =>
        let s3 := { s2 with file := fileAfter }
        if rc = 0 then
          match fileAfter with
          | none => (s3, false)
          | some file_size =>
            if file_size < MIN_FILE_SIZE then ({ s3 with file := none }, false)
            else (durationAdvisory s3 expected_duration probe, true)
        else if strContains stderr "429" ||
            strContains (lowerStr stderr) "too many requests" then
          if retry_count < MAX_RETRIES_ON_429 then
            download_video_loop env expected_duration subject name
              use_reencode (retry_count + 1) fuel
              { s3 with sleeps := s3.sleeps ++ [RETRY_DELAY_429] }
          else (addFailure s3 subject name rateLimitErrorMsg, false)
        else if strContains stderr "403" || strContains stderr "401" ||
            strContains (lowerStr stderr) "forbidden" ||
            strContains (lowerStr stderr) "unauthorized" then
          (addFailure s3 subject name authErrorMsg, false)
        else if use_reencode = false then
          download_video_loop env expected_duration subject name
            true 0 fuel { s3 with sleeps := s3.sleeps ++ [2] }
        else (addFailure s3 subject name (extract_ffmpeg_error stderr), false)
      | .timeout _ =>
        (addFailure { s2 with file := none } subject name
          (timeoutErrorMsg expected_duration), false)
      | .toolMissing => (s2, false)
      | .excOther msg _ =>
        (addFailure { s2 with file := none } subject name msg, false)

def download_video (env : Nat → FetchResult) (url original_url subject name : String)
    (fuel : Nat) (s : DLState) : DLState × Bool :=
  download_video_loop env
    (extract_duration_from_url (if original_url = "" then url else original_url))
    subject name false 0 fuel s

/-- The recursive body of `download_video_ytdlp` (lines 281-453): same
skip-if-exists shortcut and success path, but error classification works on
the lowercased concatenation of stderr and stdout, there is no codec
escalation, and a generic error records the first 500 characters of
stderr. -/
def download_video_ytdlp_loop (env : Nat → FetchResult) (expected_duration : Option ℚ)
    (subject name : String) :
    Nat → Nat → DLState → DLState × Bool
  | _, 0, s => (s, false)
  | retry_count, fuel + 1, s =>
    let skipExisting : Bool :=
      match s.file with
      | some file_size => file_size > MIN_FILE_SIZE
      | none => false
    if skipExisting then (s, true)
    else
      let s1 := { s with file := none }
      let s2 := { s1 with calls := s1.calls ++ [(false, retry_count)] }
      match env s1.calls.length with
      | .completed rc stderr stdout fileAfter probe =>
        let s3 := { s2 with file := fileAfter }
        if rc = 0 then
          match fileAfter with
          | none => (s3, false)
          | some file_size =>
            if file_size < MIN_FILE_SIZE then ({ s3 with file := none }, false)
            else (durationAdvisory s3 expected_duration probe, true)
        else
          let combined := lowerStr stderr ++ lowerStr stdout
          if strContains combined "429" || strContains combined "too many requests" then
            if retry_count < MAX_RETRIES_ON_429 then
              download_video_ytdlp_loop env expected_duration subject name
                (retry_count + 1) fuel
                { s3 with sleeps := s3.sleeps ++ [RETRY_DELAY_429] }
            else (addFailure s3 subject name rateLimitErrorMsgYt, false)
          else if strContains combined "403" || strContains combined "401" ||
              strContains combined "forbidden" || strContains combined "unauthorized" then
            (addFailure s3 subject name authErrorMsg, false)
          else
            (addFailure s3 subject name
              (if stderr = "" then "Unknown error"
               else String.mk (stderr.data.take 500)), false)
      | .timeout _ =>
        (addFailure { s2 with file := none } subject name
          (timeoutErrorMsg expected_duration), false)
      | .toolMissing => (s2, false)
      | .excOther msg _ =>
        (addFailure { s2 with file := none } subject name msg, false)

def download_video_ytdlp (env : Nat → FetchResult)
    (url original_url subject name : String) (fuel : Nat) (s : DLState) :
    DLState × Bool :=
  download_video_ytdlp_loop env
    (extract_duration_from_url (if original_url = "" then url else original_url))
    subject name 0 fuel s

/-! ## Batch layer: `download_single_video`, `download_subject`, and the
end-of-run ledger handling in `main` -/

inductive Downloader
  | ffmpeg
  | ytdlp
deriving Repr, DecidableEq

/-- One manifest item together with its external world: the pre-existing
destination file (if any) and the outcome of each fetch invocation the
controller may make for it. -/
structure ItemWorld where
  name : String
  url : String
  file0 : Option Nat
  env : Nat → FetchResult

inductive ItemResult
  | skipped
  | done (success : Bool)
deriving Repr, DecidableEq

def PLACEHOLDER_URL : String := "PASTE_YOUR_VIDEOMANIFEST_URL_HERE"

/-- `download_single_video` (lines 825-875): skip when the URL is empty or
the placeholder sentinel (before any filesystem access or sleep); in retry
mode delete any pre-existing file first; trim the URL; dispatch to the
selected downloader; sleep `DELAY_BETWEEN_DOWNLOADS` afterwards.  The
`.mp4`-suffix normalization of the output filename is not modelled — no
observable effect here depends on the file's name. -/
def download_single_video (dl : Downloader) (subject : String) (retry_only : Bool)
    (fuel : Nat) (w : ItemWorld) : ItemResult × DLState :=
  if w.url = "" ∨ w.url = PLACEHOLDER_URL then (.skipped, DLState.init w.file0)
  else
    let file0 := if retry_only then none else w.file0
    let trimmed := trim_url w.url
    let r :=
      match dl with
      | .ytdlp => download_video_ytdlp w.env trimmed w.url subject w.name fuel
          (DLState.init file0)
      | .ffmpeg => download_video w.env trimmed w.url subject w.name fuel
          (DLState.init file0)
    (.done r.2, { r.1 with sleeps := r.1.sleeps ++ [DELAY_BETWEEN_DOWNLOADS] })

/-- The sequential (`parallel_workers = 1`, the default) loop of
`download_subject` (lines 937-948): per item one outcome, counting
successes and failures and accumulating the `failed_downloads` ledger in
item order. -/
def download_subject (dl : Downloader) (subject : String) (retry_only : Bool)
    (fuel : Nat) : List ItemWorld → Nat × Nat × List FailureRecord
  | [] => (0, 0, [])
  | w :: ws =>
    let r := download_single_video dl subject retry_only fuel w
    let rest := download_subject dl subject retry_only fuel ws
    match r.1 with
    | .skipped => rest
    | .done true => (rest.1 + 1, rest.2.1, r.2.ledger ++ rest.2.2)
    | .done false => (rest.1, rest.2.1 + 1, r.2.ledger ++ rest.2.2)

/-- What `main` does to the persisted ledger file at the end of a run. -/
inductive LedgerAction
  | write (records : List FailureRecord)
  | delete
  | untouched
deriving Repr, DecidableEq

/-- `save_failed_downloads` (lines 616-624): write the whole in-memory list
(with a timestamp) when it is non-empty, else touch nothing. -/
def save_failed_downloads (failed_downloads : List FailureRecord) : LedgerAction :=
  if failed_downloads ≠ [] then .write failed_downloads else .untouched

/-- The end-of-run ledger handling of `main` (lines 1086-1097):
`if total_fail > 0: save_failed_downloads()` /
`elif args.retry and FAILED_LOG.exists(): FAILED_LOG.unlink()`. -/
def main_failure_epilogue (retryMode failedLogExists : Bool)
    (total_fail : Nat) (failed_downloads : List FailureRecord) : LedgerAction :=
  if total_fail > 0 then save_failed_downloads failed_downloads
  else if retryMode ∧ failedLogExists then .delete
  else .untouched

/-- The up-front tool availability gate of `main` (lines 1000-1013): with
`-d ytdlp` or `-d ffmpeg`, `main` returns — before loading retry state or
attempting any download — unless the selected binary answers its version
probe. -/
def main_tool_gate (dl : Downloader) (ffmpegAvailable ytdlpAvailable : Bool) : Bool :=
  match dl with
  | .ytdlp => ytdlpAvailable
  | .ffmpeg => ffmpegAvailable

/-! ## Structural lemmas about the controller loops -/

theorem durationAdvisory_calls (s : DLState) (e p : Option ℚ) :
    (durationAdvisory s e p).calls = s.calls := by
  unfold durationAdvisory
  rcases e with _ | e
  · rfl
  · dsimp only
    split
    · rfl
    · rcases p with _ | a
      · rfl
      · dsimp only
        split
        · rfl
        · split <;> rfl

theorem durationAdvisory_ledger (s : DLState) (e p : Option ℚ) :
    (durationAdvisory s e p).ledger = s.ledger := by
  unfold durationAdvisory
  rcases e with _ | e
  · rfl
  · dsimp only
    split
    · rfl
    · rcases p with _ | a
      · rfl
      · dsimp only
        split
        · rfl
        · split <;> rfl

theorem durationAdvisory_sleeps (s : DLState) (e p : Option ℚ) :
    (durationAdvisory s e p).sleeps = s.sleeps := by
  unfold durationAdvisory
  rcases e with _ | e
  · rfl
  · dsimp only
    split
    · rfl
    · rcases p with _ | a
      · rfl
      · dsimp only
        split
        · rfl
        · split <;> rfl

theorem durationAdvisory_file (s : DLState) (e p : Option ℚ) :
    (durationAdvisory s e p).file = s.file := by
  unfold durationAdvisory
  rcases e with _ | e
  · rfl
  · dsimp only
    split
    · rfl
    · rcases p with _ | a
      · rfl
      · dsimp only
        split
        · rfl
        · split <;> rfl

/-- A successful `download_video` run appends nothing to the failure
ledger: every ledger append in the source is immediately followed by
`return False`, and `False` propagates unchanged through the self-calls. -/
theorem download_video_loop_success_ledger (env : Nat → FetchResult)
    (exp : Option ℚ) (subject name : String) :
    ∀ (fuel : Nat) (useRe : Bool) (retry : Nat) (s : DLState),
      (download_video_loop env exp subject name useRe retry fuel s).2 = true →
      (download_video_loop env exp subject name useRe retry fuel s).1.ledger = s.ledger := by
  intro fuel
  induction fuel with
  | zero => intro useRe retry s h; simp [download_video_loop] at h
  | succ n ih =>
    intro useRe retry s
    rw [download_video_loop]
    dsimp only
    split
    · intro _; rfl
    · split
      · -- completed
        split
        · -- rc = 0
          split
          · intro h; simp at h
          · split
            · intro h; simp at h
            · intro _
              exact durationAdvisory_ledger _ _ _
        · split
          · -- rate-limit indicator
            split
            · intro h; exact ih _ _ _ h
            · intro h; simp at h
          · split
            · intro h; simp at h
            · split
              · intro h; exact ih _ _ _ h
              · intro h; simp at h
      · intro h; simp at h
      · intro h; simp at h
      · intro h; simp at h

/-- Same fact for the yt-dlp variant. -/
theorem download_video_ytdlp_loop_success_ledger (env : Nat → FetchResult)
    (exp : Option ℚ) (subject name : String) :
    ∀ (fuel : Nat) (retry : Nat) (s : DLState),
      (download_video_ytdlp_loop env exp subject name retry fuel s).2 = true →
      (download_video_ytdlp_loop env exp subject name retry fuel s).1.ledger = s.ledger := by
  intro fuel
  induction fuel with
  | zero => intro retry s h; simp [download_video_ytdlp_loop] at h
  | succ n ih =>
    intro retry s
    rw [download_video_ytdlp_loop]
    dsimp only
    split
    · intro _; rfl
    · split
      · split
        · split
          · intro h; simp at h
          · split
            · intro h; simp at h
            · intro _
              exact durationAdvisory_ledger _ _ _
        · split
          · split
            · intro h; exact ih _ _ h
            · intro h; simp at h
          · split
            · intro h; simp at h
            · intro h; simp at h
      · intro h; simp at h
      · intro h; simp at h
      · intro h; simp at h

/-- The number of recorded fetch invocations never decreases along the
controller loop. -/
theorem download_video_loop_calls_le (env : Nat → FetchResult)
    (exp : Option ℚ) (subject name : String) :
    ∀ (fuel : Nat) (useRe : Bool) (retry : Nat) (s : DLState),
      s.calls.length ≤
        (download_video_loop env exp subject name useRe retry fuel s).1.calls.length := by
  intro fuel
  induction fuel with
  | zero => intro u r s; simp [download_video_loop]
  | succ n ih =>
    intro u r s
    rw [download_video_loop]
    dsimp only
    split
    · exact le_refl _
    · split
      · split
        · split
          · simp
          · split
            · simp
            · rw [durationAdvisory_calls]
              simp
        · split
          · split
            · exact le_trans (by simp) (ih _ _ _)
            · simp [addFailure]
          · split
            · simp [addFailure]
            · split
              · exact le_trans (by simp) (ih _ _ _)
              · simp [addFailure]
      · simp [addFailure]
      · simp
      · simp [addFailure]

/-- A successful `download_single_video` contributes no failure records. -/
theorem download_single_video_success_ledger (dl : Downloader) (subject : String)
    (retry_only : Bool) (fuel : Nat) (w : ItemWorld) :
    (download_single_video dl subject retry_only fuel w).1 = .done true →
    (download_single_video dl subject retry_only fuel w).2.ledger = [] := by
  unfold download_single_video
  split
  · intro h; exact absurd h (by simp)
  · cases dl with
    | ffmpeg =>
      dsimp only
      intro h
      rw [ItemResult.done.injEq] at h
      unfold download_video at h ⊢
      exact download_video_loop_success_ledger _ _ _ _ _ _ _ _ h
    | ytdlp =>
      dsimp only
      intro h
      rw [ItemResult.done.injEq] at h
      unfold download_video_ytdlp at h ⊢
      exact download_video_ytdlp_loop_success_ledger _ _ _ _ _ _ _ h

/-- A run with zero failed items has an empty failure ledger; hence a
non-empty ledger forces `total_fail > 0`. -/
theorem download_subject_no_fail_ledger (dl : Downloader) (subject : String)
    (retry_only : Bool) (fuel : Nat) :
    ∀ ws : List ItemWorld,
      (download_subject dl subject retry_only fuel ws).2.1 = 0 →
      (download_subject dl subject retry_only fuel ws).2.2 = [] := by
  intro ws
  induction ws with
  | nil => intro _; rfl
  | cons w ws ih =>
    rw [download_subject]
    split
    · exact ih
    · rename_i hdone
      intro h
      rw [download_single_video_success_ledger dl subject retry_only fuel w hdone, ih h]
      rfl
    · intro h
      simp at h

/-- Once the skip shortcut is passed (no usable pre-existing file), the
controller performs at least one fetch invocation. -/
theorem download_video_loop_calls_progress (env : Nat → FetchResult)
    (exp : Option ℚ) (subject name : String) (useRe : Bool) (retry n : Nat)
    (s : DLState) (hfile : s.file = none) :
    s.calls.length + 1 ≤
      (download_video_loop env exp subject name useRe retry (n + 1) s).1.calls.length := by
  rw [download_video_loop]
  dsimp only
  rw [hfile]
  rw [if_neg Bool.false_ne_true]
  split
  · split
    · split
      · simp
      · split
        · simp
        · rw [durationAdvisory_calls]
          simp
    · split
      · split
        · exact le_trans (by simp) (download_video_loop_calls_le _ _ _ _ _ _ _ _)
        · simp [addFailure]
      · split
        · simp [addFailure]
        · split
          · exact le_trans (by simp) (download_video_loop_calls_le _ _ _ _ _ _ _ _)
          · simp [addFailure]
  · simp [addFailure]
  · simp
  · simp [addFailure]

/-! ## Single-attempt transition lemmas

Each lemma isolates one branch of the controller's classification for an
attempt entered with no usable pre-existing file. -/

/-- Rate-limit indicator with retry budget left: sleep 30 s and re-attempt
the same mode with the counter incremented. -/
theorem dv_step_429 (env : Nat → FetchResult) (exp : Option ℚ)
    (subject name : String) (useRe : Bool) (retry n : Nat) (s : DLState)
    (rc : Int) (stderr stdout : String)
    (hfile : s.file = none)
    (henv : env s.calls.length = .completed rc stderr stdout none none)
    (hrc : ¬rc = 0)
    (hind : (strContains stderr "429" ||
      strContains (lowerStr stderr) "too many requests") = true)
    (hretry : retry < MAX_RETRIES_ON_429) :
    download_video_loop env exp subject name useRe retry (n + 1) s =
      download_video_loop env exp subject name useRe (retry + 1) n
        { s with file := none, sleeps := s.sleeps ++ [RETRY_DELAY_429],
                 calls := s.calls ++ [(useRe, retry)] } := by
  rw [download_video_loop]
  dsimp only
  rw [hfile, if_neg Bool.false_ne_true, henv]
  dsimp only
  rw [if_neg hrc]
  simp only [hind, if_true]
  rw [if_pos hretry]

/-- Rate-limit indicator with the budget exhausted: terminal failure with
the rate-limit message. -/
theorem dv_step_429_exhausted (env : Nat → FetchResult) (exp : Option ℚ)
    (subject name : String) (useRe : Bool) (retry n : Nat) (s : DLState)
    (rc : Int) (stderr stdout : String) (fileAfter : Option Nat) (probe : Option ℚ)
    (hfile : s.file = none)
    (henv : env s.calls.length = .completed rc stderr stdout fileAfter probe)
    (hrc : ¬rc = 0)
    (hind : (strContains stderr "429" ||
      strContains (lowerStr stderr) "too many requests") = true)
    (hretry : ¬retry < MAX_RETRIES_ON_429) :
    download_video_loop env exp subject name useRe retry (n + 1) s =
      ({ s with file := fileAfter,
                ledger := s.ledger ++ [⟨subject, name, "", rateLimitErrorMsg⟩],
                calls := s.calls ++ [(useRe, retry)] }, false) := by
  rw [download_video_loop]
  dsimp only
  rw [hfile, if_neg Bool.false_ne_true, henv]
  dsimp only
  rw [if_neg hrc]
  simp only [hind, if_true]
  rw [if_neg hretry]
  rfl

/-- Generic non-zero exit in stream-copy mode: sleep 2 s and escalate to
re-encode mode with the retry counter reset. -/
theorem dv_step_escalate (env : Nat → FetchResult) (exp : Option ℚ)
    (subject name : String) (retry n : Nat) (s : DLState)
    (rc : Int) (stderr stdout : String) (fileAfter : Option Nat) (probe : Option ℚ)
    (hfile : s.file = none)
    (henv : env s.calls.length = .completed rc stderr stdout fileAfter probe)
    (hrc : ¬rc = 0)
    (hind : (strContains stderr "429" ||
      strContains (lowerStr stderr) "too many requests") = false)
    (hauth : (strContains stderr "403" || strContains stderr "401" ||
      strContains (lowerStr stderr) "forbidden" ||
      strContains (lowerStr stderr) "unauthorized") = false) :
    download_video_loop env exp subject name false retry (n + 1) s =
      download_video_loop env exp subject name true 0 n
        { s with file := fileAfter, sleeps := s.sleeps ++ [2],
                 calls := s.calls ++ [(false, retry)] } := by
  rw [download_video_loop]
  dsimp only
  rw [hfile, if_neg Bool.false_ne_true, henv]
  dsimp only
  rw [if_neg hrc]
  simp only [hind, hauth, Bool.false_eq_true, if_false]
  rfl

/-- Generic non-zero exit in re-encode mode: terminal failure whose reason
is extracted from stderr; the destination file is left exactly as the tool
left it. -/
theorem dv_step_generic_reencode (env : Nat → FetchResult) (exp : Option ℚ)
    (subject name : String) (retry n : Nat) (s : DLState)
    (rc : Int) (stderr stdout : String) (fileAfter : Option Nat) (probe : Option ℚ)
    (hfile : s.file = none)
    (henv : env s.calls.length = .completed rc stderr stdout fileAfter probe)
    (hrc : ¬rc = 0)
    (hind : (strContains stderr "429" ||
      strContains (lowerStr stderr) "too many requests") = false)
    (hauth : (strContains stderr "403" || strContains stderr "401" ||
      strContains (lowerStr stderr) "forbidden" ||
      strContains (lowerStr stderr) "unauthorized") = false) :
    download_video_loop env exp subject name true retry (n + 1) s =
      ({ s with file := fileAfter,
                ledger := s.ledger ++ [⟨subject, name, "", extract_ffmpeg_error stderr⟩],
                calls := s.calls ++ [(true, retry)] }, false) := by
  rw [download_video_loop]
  dsimp only
  rw [hfile, if_neg Bool.false_ne_true, henv]
  dsimp only
  rw [if_neg hrc]
  simp only [hind, hauth, Bool.false_eq_true, if_false]
  rfl

/-- Zero exit with an output of acceptable size: success, with only the
advisory duration check applied to the state. -/
theorem dv_step_success (env : Nat → FetchResult) (exp : Option ℚ)
    (subject name : String) (useRe : Bool) (retry n : Nat) (s : DLState)
    (stderr stdout : String) (sz : Nat) (probe : Option ℚ)
    (hfile : s.file = none)
    (henv : env s.calls.length = .completed 0 stderr stdout (some sz) probe)
    (hsz : MIN_FILE_SIZE ≤ sz) :
    download_video_loop env exp subject name useRe retry (n + 1) s =
      (durationAdvisory
        { s with file := some sz, calls := s.calls ++ [(useRe, retry)] } exp probe,
       true) := by
  rw [download_video_loop]
  dsimp only
  rw [hfile, if_neg Bool.false_ne_true, henv]
  dsimp only
  rw [if_pos rfl]
  rw [if_neg (by omega)]

/-- Zero exit but the output is undersized: the file is deleted and the
attempt fails without recording anything. -/
theorem dv_step_small (env : Nat → FetchResult) (exp : Option ℚ)
    (subject name : String) (useRe : Bool) (retry n : Nat) (s : DLState)
    (stderr stdout : String) (sz : Nat) (probe : Option ℚ)
    (hfile : s.file = none)
    (henv : env s.calls.length = .completed 0 stderr stdout (some sz) probe)
    (hsz : sz < MIN_FILE_SIZE) :
    download_video_loop env exp subject name useRe retry (n + 1) s =
      ({ s with file := none, calls := s.calls ++ [(useRe, retry)] }, false) := by
  rw [download_video_loop]
  dsimp only
  rw [hfile, if_neg Bool.false_ne_true, henv]
  dsimp only
  rw [if_pos rfl]
  rw [if_pos hsz]

/-- Timeout: the partial file is deleted and a timeout record is appended. -/
theorem dv_step_timeout (env : Nat → FetchResult) (exp : Option ℚ)
    (subject name : String) (useRe : Bool) (retry n : Nat) (s : DLState)
    (fileAfter : Option Nat)
    (hfile : s.file = none)
    (henv : env s.calls.length = .timeout fileAfter) :
    download_video_loop env exp subject name useRe retry (n + 1) s =
      ({ s with file := none,
                ledger := s.ledger ++ [⟨subject, name, "", timeoutErrorMsg exp⟩],
                calls := s.calls ++ [(useRe, retry)] }, false) := by
  rw [download_video_loop]
  dsimp only
  rw [hfile, if_neg Bool.false_ne_true, henv]
  rfl

/-- `FileNotFoundError` (fetch binary missing): the attempt returns a plain
per-item `False` — nothing is appended to the ledger and nothing aborts. -/
theorem dv_step_tool_missing (env : Nat → FetchResult) (exp : Option ℚ)
    (subject name : String) (useRe : Bool) (retry n : Nat) (s : DLState)
    (hfile : s.file = none)
    (henv : env s.calls.length = .toolMissing) :
    download_video_loop env exp subject name useRe retry (n + 1) s =
      ({ s with file := none, calls := s.calls ++ [(useRe, retry)] }, false) := by
  rw [download_video_loop]
  dsimp only
  rw [hfile, if_neg Bool.false_ne_true, henv]

/-- Any other exception: the partial file is deleted and `str(e)` is
recorded. -/
theorem dv_step_exc (env : Nat → FetchResult) (exp : Option ℚ)
    (subject name : String) (useRe : Bool) (retry n : Nat) (s : DLState)
    (msg : String) (fileAfter : Option Nat)
    (hfile : s.file = none)
    (henv : env s.calls.length = .excOther msg fileAfter) :
    download_video_loop env exp subject name useRe retry (n + 1) s =
      ({ s with file := none,
                ledger := s.ledger ++ [⟨subject, name, "", msg⟩],
                calls := s.calls ++ [(useRe, retry)] }, false) := by
  rw [download_video_loop]
  dsimp only
  rw [hfile, if_neg Bool.false_ne_true, henv]
  rfl

/-- yt-dlp variant of `dv_step_429`: the indicator is looked up in the
lowercased concatenation of stderr and stdout. -/
theorem dvy_step_429 (env : Nat → FetchResult) (exp : Option ℚ)
    (subject name : String) (retry n : Nat) (s : DLState)
    (rc : Int) (stderr stdout : String)
    (hfile : s.file = none)
    (henv : env s.calls.length = .completed rc stderr stdout none none)
    (hrc : ¬rc = 0)
    (hind : (strContains (lowerStr stderr ++ lowerStr stdout) "429" ||
      strContains (lowerStr stderr ++ lowerStr stdout) "too many requests") = true)
    (hretry : retry < MAX_RETRIES_ON_429) :
    download_video_ytdlp_loop env exp subject name retry (n + 1) s =
      download_video_ytdlp_loop env exp subject name (retry + 1) n
        { s with file := none, sleeps := s.sleeps ++ [RETRY_DELAY_429],
                 calls := s.calls ++ [(false, retry)] } := by
  rw [download_video_ytdlp_loop]
  dsimp only
  rw [hfile, if_neg Bool.false_ne_true, henv]
  dsimp only
  rw [if_neg hrc]
  simp only [hind, if_true]
  rw [if_pos hretry]

/-- yt-dlp variant of `dv_step_429_exhausted`. -/
theorem dvy_step_429_exhausted (env : Nat → FetchResult) (exp : Option ℚ)
    (subject name : String) (retry n : Nat) (s : DLState)
    (rc : Int) (stderr stdout : String) (fileAfter : Option Nat) (probe : Option ℚ)
    (hfile : s.file = none)
    (henv : env s.calls.length = .completed rc stderr stdout fileAfter probe)
    (hrc : ¬rc = 0)
    (hind : (strContains (lowerStr stderr ++ lowerStr stdout) "429" ||
      strContains (lowerStr stderr ++ lowerStr stdout) "too many requests") = true)
    (hretry : ¬retry < MAX_RETRIES_ON_429) :
    download_video_ytdlp_loop env exp subject name retry (n + 1) s =
      ({ s with file := fileAfter,
                ledger := s.ledger ++ [⟨subject, name, "", rateLimitErrorMsgYt⟩],
                calls := s.calls ++ [(false, retry)] }, false) := by
  rw [download_video_ytdlp_loop]
  dsimp only
  rw [hfile, if_neg Bool.false_ne_true, henv]
  dsimp only
  rw [if_neg hrc]
  simp only [hind, if_true]
  rw [if_neg hretry]
  rfl

/-- yt-dlp variant of `dv_step_tool_missing`. -/
theorem dvy_step_tool_missing (env : Nat → FetchResult) (exp : Option ℚ)
    (subject name : String) (retry n : Nat) (s : DLState)
    (hfile : s.file = none)
    (henv : env s.calls.length = .toolMissing) :
    download_video_ytdlp_loop env exp subject name retry (n + 1) s =
      ({ s with file := none, calls := s.calls ++ [(false, retry)] }, false) := by
  rw [download_video_ytdlp_loop]
  dsimp only
  rw [hfile, if_neg Bool.false_ne_true, henv]

/-! ## Claims -/

/-- C1 counterexample: the claim says the Result Validator still classifies
a file as Valid when the probed duration differs from the expected one by
more than the 10-second tolerance; but `validate_video` on an existing
2,000,000-byte file with expected duration 3600 s and probed duration 100 s
returns Invalid with a duration-mismatch reason. -/
theorem C1_counterexample :
    validate_video (some 2000000) (some 100) (some 3600) =
      (false, .durationMismatch 3600 100) := by
  have habs : |(100 : ℚ) - 3600| > DURATION_TOLERANCE := by
    rw [DURATION_TOLERANCE, abs_sub_comm, abs_of_nonneg (by norm_num)]
    norm_num
  unfold validate_video
  dsimp only
  rw [if_neg (by norm_num [MIN_FILE_SIZE])]
  rw [if_neg (by norm_num)]
  rw [if_pos habs]

/-- C1 amended: a beyond-tolerance duration mismatch makes the standalone
validator `validate_video` return Invalid with a duration-mismatch reason;
the advisory-only behaviour lives in `download_video`'s inline post-download
check, which records a mismatch warning but keeps the file and still
reports success. -/
theorem C1_amended (subject name stderr stdout : String) (sz : Nat) (a e : ℚ)
    (n : Nat) (hsz : MIN_FILE_SIZE ≤ sz) (he : ¬e = 0) (ha : ¬a = 0)
    (hdiff : |a - e| > DURATION_TOLERANCE) :
    validate_video (some sz) (some a) (some e) = (false, .durationMismatch e a) ∧
    download_video_loop (fun _ => FetchResult.completed 0 stderr stdout (some sz) (some a))
        (some e) subject name false 0 (n + 1) (DLState.init none) =
      ({ file := some sz, ledger := [], sleeps := [], calls := [(false, 0)],
         warnings := [(e, a)] }, true) := by
  constructor
  · unfold validate_video
    dsimp only
    rw [if_neg (by omega)]
    rw [if_neg he]
    rw [if_pos hdiff]
  · rw [dv_step_success (fun _ => FetchResult.completed 0 stderr stdout (some sz) (some a))
      (some e) subject name false 0 n (DLState.init none) stderr stdout sz (some a)
      rfl rfl hsz]
    unfold durationAdvisory
    dsimp only [DLState.init]
    rw [if_neg he]
    rw [if_neg ha]
    rw [if_pos hdiff]
    rfl

/-- C1 amended, witness at a concrete input. -/
theorem C1_amended_witness :
    validate_video (some 2000000) (some 100) (some 3600) =
      (false, .durationMismatch 3600 100) ∧
    download_video_loop (fun _ => FetchResult.completed 0 "" "" (some 2000000) (some 100))
        (some 3600) "S" "N" false 0 1 (DLState.init none) =
      ({ file := some 2000000, ledger := [], sleeps := [], calls := [(false, 0)],
         warnings := [(3600, 100)] }, true) :=
  C1_amended "S" "N" "" "" 2000000 100 3600 0 (by norm_num [MIN_FILE_SIZE])
    (by norm_num) (by norm_num)
    (by
      rw [DURATION_TOLERANCE, abs_sub_comm, abs_of_nonneg (by norm_num)]
      norm_num)

/-- A stub environment whose every fetch reports a 429 indicator and leaves
no output file. -/
def env429stub : Nat → FetchResult :=
  fun _ => .completed 1 "HTTP error 429" "" none none

/-- C2 counterexample: the claim says a permanently rate-limited fetch is
invoked exactly 2 times; on the always-429 stub the controller invokes the
fetch 3 times (the initial attempt plus `MAX_RETRIES_ON_429 = 2` retries),
with two 30-second sleeps in between, before the terminal rate-limit
failure. -/
theorem C2_counterexample :
    download_video_loop env429stub none "S" "N" false 0 10 (DLState.init none) =
      ({ file := none, ledger := [⟨"S", "N", "", rateLimitErrorMsg⟩],
         sleeps := [RETRY_DELAY_429, RETRY_DELAY_429],
         calls := [(false, 0), (false, 1), (false, 2)], warnings := [] }, false) := by
  decide

/-- C2 amended: an item whose fetch always reports a rate-limit indicator
(and leaves no output) is fetched exactly 3 times — the initial attempt and
two retries, each retry preceded by a 30-second cooldown — after which both
controller variants yield a terminal failure recording their rate-limit
message. -/
theorem C2_amended (env envy : Nat → FetchResult) (exp expy : Option ℚ)
    (subject name subjecty namey : String) (n m : Nat)
    (H : ∀ k, ∃ rc stderr stdout, env k = .completed rc stderr stdout none none ∧
      ¬rc = 0 ∧ (strContains stderr "429" ||
        strContains (lowerStr stderr) "too many requests") = true)
    (Hy : ∀ k, ∃ rc stderr stdout, envy k = .completed rc stderr stdout none none ∧
      ¬rc = 0 ∧ (strContains (lowerStr stderr ++ lowerStr stdout) "429" ||
        strContains (lowerStr stderr ++ lowerStr stdout) "too many requests") = true) :
    download_video_loop env exp subject name false 0 (n + 3) (DLState.init none) =
      ({ file := none, ledger := [⟨subject, name, "", rateLimitErrorMsg⟩],
         sleeps := [RETRY_DELAY_429, RETRY_DELAY_429],
         calls := [(false, 0), (false, 1), (false, 2)], warnings := [] }, false) ∧
    download_video_ytdlp_loop envy expy subjecty namey 0 (m + 3) (DLState.init none) =
      ({ file := none, ledger := [⟨subjecty, namey, "", rateLimitErrorMsgYt⟩],
         sleeps := [RETRY_DELAY_429, RETRY_DELAY_429],
         calls := [(false, 0), (false, 1), (false, 2)], warnings := [] }, false) := by
  obtain ⟨rc0, e0, o0, h0, hrc0, hi0⟩ := H 0
  obtain ⟨rc1, e1, o1, h1, hrc1, hi1⟩ := H 1
  obtain ⟨rc2, e2, o2, h2, hrc2, hi2⟩ := H 2
  obtain ⟨qc0, f0, t0, g0, hqc0, hj0⟩ := Hy 0
  obtain ⟨qc1, f1, t1, g1, hqc1, hj1⟩ := Hy 1
  obtain ⟨qc2, f2, t2, g2, hqc2, hj2⟩ := Hy 2
  constructor
  · calc download_video_loop env exp subject name false 0 (n + 2 + 1) (DLState.init none)
        = download_video_loop env exp subject name false 1 (n + 2)
            ⟨none, [], [RETRY_DELAY_429], [(false, 0)], []⟩ :=
          dv_step_429 env exp subject name false 0 (n + 2) (DLState.init none)
            rc0 e0 o0 rfl h0 hrc0 hi0 (by norm_num [MAX_RETRIES_ON_429])
      _ = download_video_loop env exp subject name false 2 (n + 1)
            ⟨none, [], [RETRY_DELAY_429, RETRY_DELAY_429],
              [(false, 0), (false, 1)], []⟩ :=
          dv_step_429 env exp subject name false 1 (n + 1)
            ⟨none, [], [RETRY_DELAY_429], [(false, 0)], []⟩
            rc1 e1 o1 rfl h1 hrc1 hi1 (by norm_num [MAX_RETRIES_ON_429])
      _ = ({ file := none, ledger := [⟨subject, name, "", rateLimitErrorMsg⟩],
             sleeps := [RETRY_DELAY_429, RETRY_DELAY_429],
             calls := [(false, 0), (false, 1), (false, 2)], warnings := [] }, false) :=
          dv_step_429_exhausted env exp subject name false 2 n
            ⟨none, [], [RETRY_DELAY_429, RETRY_DELAY_429],
              [(false, 0), (false, 1)], []⟩
            rc2 e2 o2 none none rfl h2 hrc2 hi2 (by norm_num [MAX_RETRIES_ON_429])
  · calc download_video_ytdlp_loop envy expy subjecty namey 0 (m + 2 + 1) (DLState.init none)
        = download_video_ytdlp_loop envy expy subjecty namey 1 (m + 2)
            ⟨none, [], [RETRY_DELAY_429], [(false, 0)], []⟩ :=
          dvy_step_429 envy expy subjecty namey 0 (m + 2) (DLState.init none)
            qc0 f0 t0 rfl g0 hqc0 hj0 (by norm_num [MAX_RETRIES_ON_429])
      _ = download_video_ytdlp_loop envy expy subjecty namey 2 (m + 1)
            ⟨none, [], [RETRY_DELAY_429, RETRY_DELAY_429],
              [(false, 0), (false, 1)], []⟩ :=
          dvy_step_429 envy expy subjecty namey 1 (m + 1)
            ⟨none, [], [RETRY_DELAY_429], [(false, 0)], []⟩
            qc1 f1 t1 rfl g1 hqc1 hj1 (by norm_num [MAX_RETRIES_ON_429])
      _ = ({ file := none, ledger := [⟨subjecty, namey, "", rateLimitErrorMsgYt⟩],
             sleeps := [RETRY_DELAY_429, RETRY_DELAY_429],
             calls := [(false, 0), (false, 1), (false, 2)], warnings := [] }, false) :=
          dvy_step_429_exhausted envy expy subjecty namey 2 m
            ⟨none, [], [RETRY_DELAY_429, RETRY_DELAY_429],
              [(false, 0), (false, 1)], []⟩
            qc2 f2 t2 none none rfl g2 hqc2 hj2 (by norm_num [MAX_RETRIES_ON_429])

/-- C2 amended, witness: the always-429 stub instantiates both variants. -/
theorem C2_amended_witness :
    download_video_loop env429stub none "S" "N" false 0 3 (DLState.init none) =
      ({ file := none, ledger := [⟨"S", "N", "", rateLimitErrorMsg⟩],
         sleeps := [RETRY_DELAY_429, RETRY_DELAY_429],
         calls := [(false, 0), (false, 1), (false, 2)], warnings := [] }, false) ∧
    download_video_ytdlp_loop env429stub none "T" "M" 0 3 (DLState.init none) =
      ({ file := none, ledger := [⟨"T", "M", "", rateLimitErrorMsgYt⟩],
         sleeps := [RETRY_DELAY_429, RETRY_DELAY_429],
         calls := [(false, 0), (false, 1), (false, 2)], warnings := [] }, false) :=
  C2_amended env429stub env429stub none none "S" "N" "T" "M" 0 0
    (fun _ => ⟨1, "HTTP error 429", "", rfl, by decide, by decide⟩)
    (fun _ => ⟨1, "HTTP error 429", "", rfl, by decide, by decide⟩)

/-- A stub whose fetch exits non-zero with a generic diagnostic while
leaving a large partial file at the destination. -/
def envGenericFailBig : Nat → FetchResult :=
  fun _ => .completed 1 "conversion failed!" "" (some 5000000) none

/-- C3 counterexample: the claim says every non-zero-exit attempt removes
the destination file before returning.  First conjunct: a terminal generic
failure in re-encode mode returns with the 5,000,000-byte partial file
still present.  Second conjunct: consequently, a full run whose copy-mode
fetch fails with that leftover is *short-circuited to success* by the next
attempt's exists-check — one single fetch invocation, no failure record,
and the partial file kept as the final result. -/
theorem C3_counterexample :
    (download_video_loop envGenericFailBig none "S" "N" true 0 1 (DLState.init none) =
      ({ file := some 5000000,
         ledger := [⟨"S", "N", "", extract_ffmpeg_error "conversion failed!"⟩],
         sleeps := [], calls := [(true, 0)], warnings := [] }, false)) ∧
    (download_video_loop envGenericFailBig none "S" "N" false 0 10 (DLState.init none) =
      ({ file := some 5000000, ledger := [], sleeps := [2],
         calls := [(false, 0)], warnings := [] }, true)) := by
  constructor <;> decide

/-- C3 amended: the destination file is removed before returning only on a
zero exit with undersized output, on a fetch timeout, and on an unexpected
exception; on classified non-zero exits the file is left exactly as the
tool left it (shown here for the terminal re-encode failure). -/
theorem C3_amended (env1 env2 env3 env4 : Nat → FetchResult)
    (exp1 exp2 exp3 exp4 : Option ℚ) (subject name : String)
    (useRe1 useRe2 useRe3 : Bool) (r1 r2 r3 r4 n1 n2 n3 n4 : Nat)
    (st1 so1 : String) (sz : Nat) (p1 : Option ℚ)
    (henv1 : env1 0 = .completed 0 st1 so1 (some sz) p1)
    (hsz : sz < MIN_FILE_SIZE)
    (fa2 : Option Nat) (henv2 : env2 0 = .timeout fa2)
    (msg : String) (fa3 : Option Nat) (henv3 : env3 0 = .excOther msg fa3)
    (rc4 : Int) (st4 so4 : String) (fa4 : Option Nat) (p4 : Option ℚ)
    (henv4 : env4 0 = .completed rc4 st4 so4 fa4 p4)
    (hrc4 : ¬rc4 = 0)
    (hi4 : (strContains st4 "429" ||
      strContains (lowerStr st4) "too many requests") = false)
    (ha4 : (strContains st4 "403" || strContains st4 "401" ||
      strContains (lowerStr st4) "forbidden" ||
      strContains (lowerStr st4) "unauthorized") = false) :
    (download_video_loop env1 exp1 subject name useRe1 r1 (n1 + 1) (DLState.init none) =
      ({ file := none, ledger := [], sleeps := [], calls := [(useRe1, r1)],
         warnings := [] }, false)) ∧
    (download_video_loop env2 exp2 subject name useRe2 r2 (n2 + 1) (DLState.init none) =
      ({ file := none, ledger := [⟨subject, name, "", timeoutErrorMsg exp2⟩],
         sleeps := [], calls := [(useRe2, r2)], warnings := [] }, false)) ∧
    (download_video_loop env3 exp3 subject name useRe3 r3 (n3 + 1) (DLState.init none) =
      ({ file := none, ledger := [⟨subject, name, "", msg⟩],
         sleeps := [], calls := [(useRe3, r3)], warnings := [] }, false)) ∧
    (download_video_loop env4 exp4 subject name true r4 (n4 + 1) (DLState.init none) =
      ({ file := fa4, ledger := [⟨subject, name, "", extract_ffmpeg_error st4⟩],
         sleeps := [], calls := [(true, r4)], warnings := [] }, false)) :=
  ⟨dv_step_small env1 exp1 subject name useRe1 r1 n1 (DLState.init none)
      st1 so1 sz p1 rfl henv1 hsz,
   dv_step_timeout env2 exp2 subject name useRe2 r2 n2 (DLState.init none)
      fa2 rfl henv2,
   dv_step_exc env3 exp3 subject name useRe3 r3 n3 (DLState.init none)
      msg fa3 rfl henv3,
   dv_step_generic_reencode env4 exp4 subject name r4 n4 (DLState.init none)
      rc4 st4 so4 fa4 p4 rfl henv4 hrc4 hi4 ha4⟩

/-- C3 amended, witness at concrete stubs. -/
theorem C3_amended_witness :
    (download_video_loop (fun _ => .completed 0 "out" "log" (some 5000) none)
        none "S" "N" false 0 1 (DLState.init none) =
      ({ file := none, ledger := [], sleeps := [], calls := [(false, 0)],
         warnings := [] }, false)) ∧
    (download_video_loop (fun _ => .timeout (some 77777)) none "S" "N" false 0 1
        (DLState.init none) =
      ({ file := none, ledger := [⟨"S", "N", "", timeoutErrorMsg none⟩],
         sleeps := [], calls := [(false, 0)], warnings := [] }, false)) ∧
    (download_video_loop (fun _ => .excOther "boom" (some 88888)) none "S" "N" false 0 1
        (DLState.init none) =
      ({ file := none, ledger := [⟨"S", "N", "", "boom"⟩],
         sleeps := [], calls := [(false, 0)], warnings := [] }, false)) ∧
    (download_video_loop (fun _ => .completed 1 "conversion failed!" "" (some 5000000) none)
        none "S" "N" true 0 1 (DLState.init none) =
      ({ file := some 5000000,
         ledger := [⟨"S", "N", "", extract_ffmpeg_error "conversion failed!"⟩],
         sleeps := [], calls := [(true, 0)], warnings := [] }, false)) :=
  C3_amended (fun _ => .completed 0 "out" "log" (some 5000) none)
    (fun _ => .timeout (some 77777)) (fun _ => .excOther "boom" (some 88888))
    (fun _ => .completed 1 "conversion failed!" "" (some 5000000) none)
    none none none none "S" "N" false false false 0 0 0 0 0 0 0 0
    "out" "log" 5000 none rfl (by decide) (some 77777) rfl "boom" (some 88888) rfl
    1 "conversion failed!" "" (some 5000000) none rfl (by decide) (by decide) (by decide)

/-- C4 counterexample: the claim says a JSON blob that decodes but lacks
the `Duration100Nano` field yields `None`; in fact `metadata.get(..., 0)`
makes the extractor return `0.0` there (`e30=` is the base64 of the empty
JSON object). -/
theorem C4_counterexample :
    extract_duration_from_url "https://h/v?altManifestMetadata=e30=" = some 0 := by
  have h : extract_duration_from_url "https://h/v?altManifestMetadata=e30=" =
      some ((0 : ℚ) / 10000000) := by rfl
  rw [h]
  norm_num

/-- C4 amended: the extractor never raises (it is a total function of the
URL here); a missing `altManifestMetadata` key, malformed base64 and
malformed JSON all yield `None`, but a well-formed JSON object lacking the
`Duration100Nano` field yields `0.0` — the Python default `0` divided by
the scale factor — not `None`. -/
theorem C4_amended (url : String)
    (h : strContains url "altManifestMetadata=" = false) :
    extract_duration_from_url url = none ∧
    extract_duration_from_url "https://h/v?altManifestMetadata=ab!!" = none ∧
    extract_duration_from_url "https://h/v?altManifestMetadata=e29vcHM=" = none ∧
    extract_duration_from_url "https://h/v?altManifestMetadata=e30=" = some 0 := by
  refine ⟨?_, by decide, by decide, ?_⟩
  · unfold strContains at h
    rcases hf : findSub url.data "altManifestMetadata=".data with _ | i
    · unfold extract_duration_from_url
      rw [hf]
    · rw [hf] at h
      simp at h
  · have h0 : extract_duration_from_url "https://h/v?altManifestMetadata=e30=" =
        some ((0 : ℚ) / 10000000) := by rfl
    rw [h0]
    norm_num

/-- C4 amended, witness at a concrete marker-free URL. -/
theorem C4_amended_witness :
    extract_duration_from_url "https://h/v?noMarker=1" = none ∧
    extract_duration_from_url "https://h/v?altManifestMetadata=ab!!" = none ∧
    extract_duration_from_url "https://h/v?altManifestMetadata=e29vcHM=" = none ∧
    extract_duration_from_url "https://h/v?altManifestMetadata=e30=" = some 0 :=
  C4_amended "https://h/v?noMarker=1" (by decide)

/-- A stub whose fetch raises `FileNotFoundError` (the tool binary is
absent), and one that succeeds with a 2,000,000-byte output. -/
def envToolMissing : Nat → FetchResult := fun _ => .toolMissing

def envFetchOk : Nat → FetchResult := fun _ => .completed 0 "" "" (some 2000000) none

/-- C5 counterexample: the claim says a fetch attempt failing because the
tool binary is absent does not merely return a per-item failure with the
batch continuing.  In fact, on a two-item batch whose first item hits
`FileNotFoundError`, the run continues — the second item succeeds — and the
tool-missing item is counted as one plain failure with *no* FailureRecord
appended. -/
theorem C5_counterexample :
    download_subject .ffmpeg "S" false 10
        [⟨"a", "u1", none, envToolMissing⟩, ⟨"b", "u2", none, envFetchOk⟩] =
      (1, 1, []) := by
  decide

/-- C5 amended: a fetch attempt that raises `FileNotFoundError` returns a
per-item failure in both controller variants, records no FailureRecord, and
the batch loop simply counts one more failure and processes the remaining
items; the only whole-run guard against a missing tool is `main`'s up-front
availability check, which exits before any download is attempted. -/
theorem C5_amended (subject : String) (retry_only : Bool) (n ny : Nat)
    (w wy : ItemWorld) (ws : List ItemWorld)
    (hu1 : ¬w.url = "") (hu2 : ¬w.url = PLACEHOLDER_URL)
    (hf0 : w.file0 = none) (henv : w.env 0 = .toolMissing)
    (hy1 : ¬wy.url = "") (hy2 : ¬wy.url = PLACEHOLDER_URL)
    (hyf : wy.file0 = none) (henvy : wy.env 0 = .toolMissing) :
    (download_single_video .ffmpeg subject retry_only (n + 1) w =
      (.done false, ⟨none, [], [DELAY_BETWEEN_DOWNLOADS], [(false, 0)], []⟩)) ∧
    (download_single_video .ytdlp subject retry_only (ny + 1) wy =
      (.done false, ⟨none, [], [DELAY_BETWEEN_DOWNLOADS], [(false, 0)], []⟩)) ∧
    (download_subject .ffmpeg subject retry_only (n + 1) (w :: ws) =
      ((download_subject .ffmpeg subject retry_only (n + 1) ws).1,
       (download_subject .ffmpeg subject retry_only (n + 1) ws).2.1 + 1,
       (download_subject .ffmpeg subject retry_only (n + 1) ws).2.2)) := by
  have ha : download_single_video .ffmpeg subject retry_only (n + 1) w =
      (.done false, ⟨none, [], [DELAY_BETWEEN_DOWNLOADS], [(false, 0)], []⟩) := by
    unfold download_single_video
    rw [if_neg (by push_neg; exact ⟨hu1, hu2⟩)]
    dsimp only
    unfold download_video
    rw [hf0, ite_self]
    rw [dv_step_tool_missing w.env _ subject w.name false 0 n (DLState.init none)
      rfl henv]
    rfl
  have hb : download_single_video .ytdlp subject retry_only (ny + 1) wy =
      (.done false, ⟨none, [], [DELAY_BETWEEN_DOWNLOADS], [(false, 0)], []⟩) := by
    unfold download_single_video
    rw [if_neg (by push_neg; exact ⟨hy1, hy2⟩)]
    dsimp only
    unfold download_video_ytdlp
    rw [hyf, ite_self]
    rw [dvy_step_tool_missing wy.env _ subject wy.name 0 ny (DLState.init none)
      rfl henvy]
    rfl
  refine ⟨ha, hb, ?_⟩
  rw [download_subject, ha]
  rfl

/-- C5 amended, witness at concrete stubs. -/
theorem C5_amended_witness :
    (download_single_video .ffmpeg "S" false 1 ⟨"a", "u1", none, envToolMissing⟩ =
      (.done false, ⟨none, [], [DELAY_BETWEEN_DOWNLOADS], [(false, 0)], []⟩)) ∧
    (download_single_video .ytdlp "S" false 1 ⟨"c", "u3", none, envToolMissing⟩ =
      (.done false, ⟨none, [], [DELAY_BETWEEN_DOWNLOADS], [(false, 0)], []⟩)) ∧
    (download_subject .ffmpeg "S" false 1
        (⟨"a", "u1", none, envToolMissing⟩ :: [⟨"b", "u2", none, envFetchOk⟩]) =
      ((download_subject .ffmpeg "S" false 1 [⟨"b", "u2", none, envFetchOk⟩]).1,
       (download_subject .ffmpeg "S" false 1 [⟨"b", "u2", none, envFetchOk⟩]).2.1 + 1,
       (download_subject .ffmpeg "S" false 1 [⟨"b", "u2", none, envFetchOk⟩]).2.2)) :=
  C5_amended "S" false 0 0 ⟨"a", "u1", none, envToolMissing⟩
    ⟨"c", "u3", none, envToolMissing⟩ [⟨"b", "u2", none, envFetchOk⟩]
    (by decide) (by decide) rfl rfl (by decide) (by decide) rfl rfl

/-- C6: an item whose fetch fails in stream-copy mode with a generic
non-zero exit (neither rate-limit nor auth indicators, leaving no file) and
succeeds in re-encode mode produces exactly two fetch invocations — copy
with retry counter 0, then re-encode with the counter reset to 0 — one
successful outcome, no failure record, and only the 2-second escalation
sleep. -/
theorem C6_escalation_success (env : Nat → FetchResult) (exp : Option ℚ)
    (subject name : String) (n : Nat) (rc0 : Int) (e0 o0 e1 o1 : String)
    (p1 : Option ℚ) (sz : Nat)
    (h0 : env 0 = .completed rc0 e0 o0 none none)
    (hrc0 : ¬rc0 = 0)
    (hi0 : (strContains e0 "429" ||
      strContains (lowerStr e0) "too many requests") = false)
    (ha0 : (strContains e0 "403" || strContains e0 "401" ||
      strContains (lowerStr e0) "forbidden" ||
      strContains (lowerStr e0) "unauthorized") = false)
    (h1 : env 1 = .completed 0 e1 o1 (some sz) p1)
    (hsz : MIN_FILE_SIZE ≤ sz) :
    (download_video_loop env exp subject name false 0 (n + 2) (DLState.init none)).2
      = true ∧
    (download_video_loop env exp subject name false 0 (n + 2) (DLState.init none)).1.calls
      = [(false, 0), (true, 0)] ∧
    (download_video_loop env exp subject name false 0 (n + 2) (DLState.init none)).1.ledger
      = [] ∧
    (download_video_loop env exp subject name false 0 (n + 2) (DLState.init none)).1.sleeps
      = [2] := by
  have hrun : download_video_loop env exp subject name false 0 (n + 2) (DLState.init none) =
      (durationAdvisory ⟨some sz, [], [2], [(false, 0), (true, 0)], []⟩ exp p1, true) :=
    calc download_video_loop env exp subject name false 0 (n + 1 + 1) (DLState.init none)
        = download_video_loop env exp subject name true 0 (n + 1)
            ⟨none, [], [2], [(false, 0)], []⟩ :=
          dv_step_escalate env exp subject name 0 (n + 1) (DLState.init none)
            rc0 e0 o0 none none rfl h0 hrc0 hi0 ha0
      _ = (durationAdvisory ⟨some sz, [], [2], [(false, 0), (true, 0)], []⟩ exp p1,
            true) :=
          dv_step_success env exp subject name true 0 n
            ⟨none, [], [2], [(false, 0)], []⟩ e1 o1 sz p1 rfl h1 hsz
  rw [hrun]
  exact ⟨rfl, durationAdvisory_calls _ _ _, durationAdvisory_ledger _ _ _,
    durationAdvisory_sleeps _ _ _⟩

/-- C6 witness at a concrete stub. -/
theorem C6_escalation_success_witness :
    (download_video_loop
        (fun k => if k = 0 then .completed 1 "mux problem" "" none none
          else .completed 0 "" "" (some 2000000) none)
        none "S" "N" false 0 2 (DLState.init none)).2 = true ∧
    (download_video_loop
        (fun k => if k = 0 then .completed 1 "mux problem" "" none none
          else .completed 0 "" "" (some 2000000) none)
        none "S" "N" false 0 2 (DLState.init none)).1.calls
      = [(false, 0), (true, 0)] ∧
    (download_video_loop
        (fun k => if k = 0 then .completed 1 "mux problem" "" none none
          else .completed 0 "" "" (some 2000000) none)
        none "S" "N" false 0 2 (DLState.init none)).1.ledger = [] ∧
    (download_video_loop
        (fun k => if k = 0 then .completed 1 "mux problem" "" none none
          else .completed 0 "" "" (some 2000000) none)
        none "S" "N" false 0 2 (DLState.init none)).1.sleeps = [2] :=
  C6_escalation_success
    (fun k => if k = 0 then .completed 1 "mux problem" "" none none
      else .completed 0 "" "" (some 2000000) none)
    none "S" "N" 0 1 "mux problem" "" "" "" none 2000000
    rfl (by decide) (by decide) (by decide) rfl (by decide)

/-- C7: with no duration hint, an existing file of exactly 999,999 bytes is
rejected as too small and an existing file of exactly 1,000,000 bytes is
accepted — validity is size-only when no duration is known. -/
theorem C7_validator_size_boundary :
    validate_video (some 999999) none none = (false, .tooSmall 999999) ∧
    validate_video (some 1000000) none none = (true, .validSize 1000000) := by
  decide

/-- C9: a URL whose `altManifestMetadata` payload is the base64 of
`\x7b"Duration100Nano": 36000000000\x7d` decodes to exactly 3600 seconds. -/
theorem C9_duration_roundtrip :
    extract_duration_from_url
      "https://host/videomanifest?foo=1&altManifestMetadata=eyJEdXJhdGlvbjEwME5hbm8iOiAzNjAwMDAwMDAwMH0=&format=dash"
      = some 3600 := by
  have h : extract_duration_from_url
      "https://host/videomanifest?foo=1&altManifestMetadata=eyJEdXJhdGlvbjEwME5hbm8iOiAzNjAwMDAwMDAwMH0=&format=dash"
      = some ((36000000000 : ℚ) / 10000000) := by rfl
  rw [h]
  norm_num

/-- C10: the skip-if-exists shortcut of `download_video` is strictly
greater-than: a pre-existing file of exactly `MIN_FILE_SIZE` bytes is
deleted and the controller proceeds exactly as if no file existed,
performing at least one fetch invocation — even though `validate_video`
accepts a file of exactly that size — while any strictly larger file
short-circuits to success with no fetch at all. -/
theorem C10_skip_strictly_greater (env : Nat → FetchResult) (exp : Option ℚ)
    (subject name : String) (useRe : Bool) (retry n k : Nat) :
    (download_video_loop env exp subject name useRe retry (n + 1)
        (DLState.init (some MIN_FILE_SIZE)) =
      download_video_loop env exp subject name useRe retry (n + 1)
        (DLState.init none)) ∧
    (download_video_loop env exp subject name useRe retry (n + 1)
        (DLState.init (some MIN_FILE_SIZE))).1.calls ≠ [] ∧
    (download_video_loop env exp subject name useRe retry (n + 1)
        (DLState.init (some (MIN_FILE_SIZE + k + 1))) =
      (DLState.init (some (MIN_FILE_SIZE + k + 1)), true)) ∧
    validate_video (some MIN_FILE_SIZE) none none =
      (true, .validSize MIN_FILE_SIZE) := by
  have h1 : download_video_loop env exp subject name useRe retry (n + 1)
      (DLState.init (some MIN_FILE_SIZE)) =
      download_video_loop env exp subject name useRe retry (n + 1)
        (DLState.init none) := by
    rfl
  have h2 := download_video_loop_calls_progress env exp subject name useRe retry n
    (DLState.init none) rfl
  refine ⟨h1, ?_, ?_, by decide⟩
  · rw [h1]
    intro hnil
    rw [hnil] at h2
    simp [DLState.init] at h2
  · rw [download_video_loop]
    dsimp only [DLState.init]
    have hgt : MIN_FILE_SIZE + k + 1 > MIN_FILE_SIZE := by omega
    simp [hgt]

/-- C8: at the end of a run, the persisted ledger file is written (with the
whole in-memory record list) exactly when at least one failure record was
accumulated; a retry-mode run that finishes with zero failed items deletes
the existing ledger file; otherwise nothing is touched. -/
theorem C8_ledger_lifecycle (dl : Downloader) (subject : String)
    (retry ex : Bool) (fuel : Nat) (ws : List ItemWorld) :
    main_failure_epilogue retry ex (download_subject dl subject retry fuel ws).2.1
      (download_subject dl subject retry fuel ws).2.2 =
    if (download_subject dl subject retry fuel ws).2.2 ≠ [] then
      .write (download_subject dl subject retry fuel ws).2.2
    else if retry ∧ ex ∧ (download_subject dl subject retry fuel ws).2.1 = 0 then
      .delete
    else .untouched := by
  have hinv := download_subject_no_fail_ledger dl subject retry fuel ws
  rcases hr : download_subject dl subject retry fuel ws with ⟨succ, fail, led⟩
  rw [hr] at hinv
  dsimp only at hinv ⊢
  unfold main_failure_epilogue save_failed_downloads
  by_cases hled : led = []
  · subst hled
    rcases Nat.eq_zero_or_pos fail with hf | hf
    · subst hf
      simp
    · simp [hf, Nat.pos_iff_ne_zero.mp hf]
  · have hf : fail > 0 := by
      rcases Nat.eq_zero_or_pos fail with hf | hf
      · exact absurd (hinv hf) hled
      · exact hf
    simp [hf, hled]

/-- C8 witness: a retry-mode run over an empty batch with an existing
ledger file ends in deletion. -/
theorem C8_ledger_lifecycle_witness :
    main_failure_epilogue true true (download_subject .ffmpeg "S" true 1 []).2.1
      (download_subject .ffmpeg "S" true 1 []).2.2 =
    if (download_subject .ffmpeg "S" true 1 []).2.2 ≠ [] then
      .write (download_subject .ffmpeg "S" true 1 []).2.2
    else if (true : Bool) ∧ (true : Bool) ∧
        (download_subject .ffmpeg "S" true 1 []).2.1 = 0 then
      .delete
    else .untouched :=
  C8_ledger_lifecycle .ffmpeg "S" true true 1 []

/-- C10 witness at a concrete succeeding environment. -/
theorem C10_skip_strictly_greater_witness :
    (download_video_loop envFetchOk none "S" "N" false 0 (0 + 1)
        (DLState.init (some MIN_FILE_SIZE)) =
      download_video_loop envFetchOk none "S" "N" false 0 (0 + 1)
        (DLState.init none)) ∧
    (download_video_loop envFetchOk none "S" "N" false 0 (0 + 1)
        (DLState.init (some MIN_FILE_SIZE))).1.calls ≠ [] ∧
    (download_video_loop envFetchOk none "S" "N" false 0 (0 + 1)
        (DLState.init (some (MIN_FILE_SIZE + 0 + 1))) =
      (DLState.init (some (MIN_FILE_SIZE + 0 + 1)), true)) ∧
    validate_video (some MIN_FILE_SIZE) none none =
      (true, .validSize MIN_FILE_SIZE) :=
  C10_skip_strictly_greater envFetchOk none "S" "N" false 0 0 0

end SharePointDL
